import Mathlib

/- Verification of the book relevance-ranking engine of the bookshelf app.

   The ranking core lives in the improved AddBookPage component:
   `buildSmartSearchQuery`, `calculateRelevanceScore`, `shouldExcludeItem`
   and the filter/score/sort/truncate/re-sort pipeline in `handleSearch`.
   JavaScript strings are embedded as lists of unicode characters, JavaScript
   numbers as rationals, and `Array.prototype.sort` (guaranteed stable for a
   consistent comparator by the ECMAScript spec) as a stable insertion sort
   with the order relation `comparator a b <= 0`.  Regular-expression tests
   are unfolded into explicit decidable predicates over character lists,
   alternative by alternative. -/

namespace BookSearch

/-- JavaScript strings as lists of unicode code points. -/
abbrev Str := List Char

/-- Embed a Lean string literal as a JavaScript string value. -/
def str (s : String) : Str := s.data

/-- JavaScript `toLowerCase`, restricted to the ASCII range actually exercised
here; CJK characters are caseless in both JavaScript and this model. -/
def jsToLower (s : Str) : Str := s.map Char.toLower

/-- JavaScript `s.includes(t)`: `t` occurs as a contiguous substring of `s`. -/
def jsIncludes (s t : Str) : Bool := s.tails.any fun suf => t.isPrefixOf suf

/-- All decompositions of a list into a prefix and the matching suffix; used to
give regular-expression alternations their exact backtracking semantics. -/
def splits (s : Str) : List (Str × Str) :=
  (List.range (s.length + 1)).map fun i => (s.take i, s.drop i)

/-- The character class `[0-9]`. -/
def isDigitChar (c : Char) : Bool := '0' ≤ c && c ≤ '9'

/-- The JavaScript character class `\s` (whitespace and line separators). -/
def isJsWs (c : Char) : Bool :=
  c = ' ' || c = '\t' || c = '\n' || c = '\x0b' || c = '\x0c' || c = '\r' ||
  c.toNat = 0xa0 || c.toNat = 0x1680 ||
  (0x2000 ≤ c.toNat && c.toNat ≤ 0x200a) ||
  c.toNat = 0x2028 || c.toNat = 0x2029 || c.toNat = 0x202f ||
  c.toNat = 0x205f || c.toNat = 0x3000 || c.toNat = 0xfeff

/-- The regex metacharacter `.`: any character except a line terminator. -/
def isDotChar (c : Char) : Bool :=
  !(c = '\n' || c = '\r' || c.toNat = 0x2028 || c.toNat = 0x2029)

/-- Case-insensitive test that `t` begins with the letters of `pat`. -/
def ciHasPrefix (t : Str) (pat : Str) : Bool :=
  pat.isPrefixOf (jsToLower (t.take pat.length))

/-- `[0-9]+巻` anchored at the head of `t`: a maximal run of at least one ASCII
digit followed directly by 巻 (backtracking to a shorter digit run can never
help, because the following character would again be a digit). -/
def digitsKanAt (t : Str) : Bool :=
  t.takeWhile isDigitChar ≠ [] &&
  (t.drop (t.takeWhile isDigitChar).length).head? = some '巻'

/-- `第[0-9]+巻` anchored at the head of `t`. -/
def daiDigitsKanAt (t : Str) : Bool :=
  t.head? = some '第' && digitsKanAt t.tail

/-- `vol\.?\s*[0-9]+` (flag `i`) anchored at the head of `t`. -/
def volDigitsAt (t : Str) : Bool :=
  ciHasPrefix t (str ("vol")) &&
  (let r := t.drop 3
   let r2 := if r.head? = some '.' then r.tail else r
   match (r2.dropWhile isJsWs).head? with
   | some c => isDigitChar c
   | none => false)

/-- The explicit-volume test of `buildSmartSearchQuery`:
`/[0-9]+巻|第[0-9]+巻|vol\.?\s*[0-9]+/i.test(searchTerm)`. -/
def hasVolumeNumber (s : Str) : Bool :=
  s.tails.any fun t => digitsKanAt t || daiDigitsKanAt t || volDigitsAt t

/-- `buildSmartSearchQuery`: when no explicit volume number is present, join
`intitle:"term"`, `intitle:"term 1"`, `intitle:"term 第1巻"` and the bare term
with `' OR '`; otherwise return the term unchanged. -/
def buildSmartSearchQuery (searchTerm : Str) : Str :=
  if !hasVolumeNumber searchTerm then
    List.intercalate (str (" OR "))
      [str ("intitle:\"") ++ searchTerm ++ str ("\""),
       str ("intitle:\"") ++ searchTerm ++ str (" 1\""),
       str ("intitle:\"") ++ searchTerm ++ str (" 第1巻\""),
       searchTerm]
  else searchTerm

/-- Pattern `^(.+?)\s*1$` of `volumeOnePatterns`: a non-empty run of
non-line-terminator characters, optional whitespace, then a final `1`. -/
def patTrailingOne (t : Str) : Bool :=
  (splits t).any fun q =>
    q.1 ≠ [] && q.1.all isDotChar &&
    (splits q.2).any fun w => w.1.all isJsWs && w.2 = [ '1' ]

/-- Patterns `^(.+?)\s*第1巻`, `^(.+?)\s*1巻`, `^(.+?)\s*一巻` (no end anchor):
a non-empty run of non-line-terminator characters, optional whitespace, then
the literal `pat`, with anything allowed afterwards. -/
def patAfterLead (pat : Str) (t : Str) : Bool :=
  (splits t).any fun q =>
    q.1 ≠ [] && q.1.all isDotChar &&
    (splits q.2).any fun w => w.1.all isJsWs && pat.isPrefixOf w.2

/-- Pattern `/vol\.?\s*1$/i` anchored at the head of `t` and consuming all of
it: `vol`, an optional period, maximal whitespace, then exactly `1`. -/
def volOneEndAt (t : Str) : Bool :=
  ciHasPrefix t (str ("vol")) &&
  (let r := t.drop 3
   let r2 := if r.head? = some '.' then r.tail else r
   r2.dropWhile isJsWs = [ '1' ])

/-- Pattern `/vol\.?\s*1$/i` tested anywhere in `t`. -/
def patVolOneEnd (t : Str) : Bool := t.tails.any volOneEndAt

/-- Pattern `/#1$/i`. -/
def patHashOneEnd (t : Str) : Bool := (str ("#1")).isSuffixOf t

/-- Pattern `/\s1\s*$/`: a whitespace character, `1`, then only whitespace up
to the end of the title. -/
def patWsOneEnd (t : Str) : Bool :=
  t.tails.any fun suf =>
    match suf with
    | c :: '1' :: rest => isJsWs c && rest.all isJsWs
    | _ => false

/-- `volumeOnePatterns.some(pattern => pattern.test(title))` of
`calculateRelevanceScore`, alternatives in source order. -/
def isVolumeOne (title : Str) : Bool :=
  patTrailingOne title ||
  patAfterLead (str ("第1巻")) title ||
  patAfterLead (str ("1巻")) title ||
  patAfterLead (str ("一巻")) title ||
  patVolOneEnd title ||
  patHashOneEnd title ||
  patWsOneEnd title

/-- The first-volume regex of the `prioritizeFirstVolume` re-sort in
`handleSearch`: `/1$|第1巻|1巻|一巻|vol\.?\s*1|#1$/i`. -/
def volOneAnyAt (t : Str) : Bool :=
  ciHasPrefix t (str ("vol")) &&
  (let r := t.drop 3
   let r2 := if r.head? = some '.' then r.tail else r
   (r2.dropWhile isJsWs).head? = some '1')

/-- `/1$|第1巻|1巻|一巻|vol\.?\s*1|#1$/i.test(title)`. -/
def sortVolumeOne (title : Str) : Bool :=
  title.getLast? = some '1' ||
  jsIncludes title (str ("第1巻")) ||
  jsIncludes title (str ("1巻")) ||
  jsIncludes title (str ("一巻")) ||
  title.tails.any volOneAnyAt ||
  patHashOneEnd title

/-- The `variants` list of `calculateRelevanceScore` (edition variants that
are penalized by 300 points). -/
def variants : List Str :=
  [str ("完全版"), str ("カラー版"), str ("新装版"), str ("愛蔵版"),
   str ("特装版"), str ("4コマ"), str ("ショート"), str ("アンソロジー"),
   str ("番外編"), str ("スピンオフ")]

/-- The `excludeKeywords` list of `shouldExcludeItem`. -/
def excludeKeywords : List Str :=
  [str ("4コマ"), str ("よんこま"), str ("ショート"), str ("アンソロジー"),
   str ("番外編"), str ("スピンオフ"), str ("side story"),
   str ("サイドストーリー"), str ("ファンブック"), str ("ガイドブック"),
   str ("公式ガイド"), str ("設定資料"), str ("アートブック")]

/-- `variants.some(variant => title.includes(variant.toLowerCase()))`. -/
def hasVariantKeyword (title : Str) : Bool :=
  variants.any fun variant => jsIncludes title (jsToLower variant)

/-- `excludeKeywords.some(keyword => title.includes(keyword))`. -/
def hasExcludeKeyword (title : Str) : Bool :=
  excludeKeywords.any fun keyword => jsIncludes title keyword

/-- `imageLinks` of the Google Books `volumeInfo`. -/
structure ImageLinks where
  thumbnail : Option Str

/-- The `volumeInfo` field of a Google Books search result. -/
structure VolumeInfo where
  title : Str
  authors : Option (List Str)
  description : Option Str
  imageLinks : Option ImageLinks
  averageRating : Option ℚ
  ratingsCount : Option ℚ
  publishedDate : Option Str
  pageCount : Option ℚ
  categories : Option (List Str)

/-- A Google Books search result (`BookItem` in the source). -/
structure BookItem where
  id : Str
  volumeInfo : VolumeInfo

/-- JavaScript `parseInt` on the decimal strings that occur as year prefixes:
skip leading whitespace, read an optional sign and then a maximal run of
digits; no digits gives `NaN`, modelled as `none`. -/
def jsParseInt (s : Str) : Option ℤ :=
  let t := s.dropWhile isJsWs
  let signed : ℤ × Str :=
    match t with
    | '-' :: r => (-1, r)
    | '+' :: r => (1, r)
    | _ => (1, t)
  let ds := signed.2.takeWhile isDigitChar
  if ds = [] then none
  else some (signed.1 * (ds.foldl (fun n c => 10 * n + (c.toNat - '0'.toNat)) 0 : ℕ))

/-- `publishedDate.split('-')[0]`: the prefix before the first dash. -/
def firstDashSegment (s : Str) : Str := s.takeWhile fun c => c ≠ '-'

/-- Title-match component: exact match 1000, prefix match 500, substring match
200; the three conditions are tested independently and add up. -/
def titleMatchScore (title searchLower : Str) : ℚ :=
  (if title = searchLower then 1000 else 0)
  + (if searchLower.isPrefixOf title then 500 else 0)
  + (if jsIncludes title searchLower then 200 else 0)

/-- First-volume component: 800 when `volumeOnePatterns` matches. -/
def volumeOneBonus (title : Str) : ℚ := if isVolumeOne title then 800 else 0

/-- `item.volumeInfo.ratingsCount || 0`. -/
def ratingsCountOf (item : BookItem) : ℚ :=
  item.volumeInfo.ratingsCount.getD 0

/-- `item.volumeInfo.averageRating || 0`. -/
def averageRatingOf (item : BookItem) : ℚ :=
  item.volumeInfo.averageRating.getD 0

/-- Variant-edition penalty: minus 300 when a `variants` keyword occurs. -/
def variantPenalty (title : Str) : ℚ :=
  if hasVariantKeyword title then -300 else 0

/-- `if (item.volumeInfo.authors?.length) score += 50`: an absent list and an
empty list are both falsy. -/
def authorBonus (item : BookItem) : ℚ :=
  match item.volumeInfo.authors with
  | none => 0
  | some l => if l.length = 0 then 0 else 50

/-- `if (item.volumeInfo.imageLinks?.thumbnail) score += 30`: the empty string
is falsy. -/
def imageBonus (item : BookItem) : ℚ :=
  match item.volumeInfo.imageLinks with
  | none => 0
  | some il =>
    match il.thumbnail with
    | none => 0
    | some th => if th = [] then 0 else 30

/-- The published year: 2000 when the date is absent, otherwise `parseInt` of
the text before the first dash (`none` models `NaN`). -/
def publishedYear (item : BookItem) : Option ℤ :=
  match item.volumeInfo.publishedDate with
  | none => some 2000
  | some d => jsParseInt (firstDashSegment d)

/-- Recency component: `publishedYear - 2010` when the year is greater than
2010; a `NaN` year fails the comparison and contributes nothing. -/
def recencyBonus (item : BookItem) : ℚ :=
  match publishedYear item with
  | none => 0
  | some y => if 2010 < y then ((y - 2010 : ℤ) : ℚ) else 0

/-- `calculateRelevanceScore(item, searchTerm)`: the additive point system,
components in source order. -/
def calculateRelevanceScore (item : BookItem) (searchTerm : Str) : ℚ :=
  titleMatchScore (jsToLower item.volumeInfo.title) (jsToLower searchTerm)
  + volumeOneBonus (jsToLower item.volumeInfo.title)
  + 2 * ratingsCountOf item
  + 10 * averageRatingOf item
  + variantPenalty (jsToLower item.volumeInfo.title)
  + authorBonus item
  + imageBonus item
  + recencyBonus item

/-- `shouldExcludeItem(item, searchTerm)`: `false` when `excludeVariants` is
off, otherwise an exclusion-keyword test on the lowercased title (the search
term is not consulted). -/
def shouldExcludeItem (item : BookItem) (excludeVariants : Bool) : Bool :=
  if !excludeVariants then false
  else hasExcludeKeyword (jsToLower item.volumeInfo.title)

/-- A search result with its relevance score attached
(`{...item, relevanceScore}` in `handleSearch`). -/
structure Scored where
  item : BookItem
  relevanceScore : ℚ

/-- Order of the first sort pass: the comparator
`(a, b) => b.relevanceScore - a.relevanceScore` keeps `a` ahead of `b`
exactly when it returns a nonpositive value. -/
def relevanceOrder (a b : Scored) : Prop :=
  b.relevanceScore ≤ a.relevanceScore

instance : DecidableRel relevanceOrder :=
  fun a b => inferInstanceAs (Decidable (b.relevanceScore ≤ a.relevanceScore))

/-- First-volume detection of the re-sort pass, on the lowercased title. -/
def isVolOneScored (s : Scored) : Bool :=
  sortVolumeOne (jsToLower s.item.volumeInfo.title)

/-- Order of the `prioritizeFirstVolume` re-sort comparator: a detected first
volume goes ahead of any non-first-volume, and ties fall back to descending
relevance. -/
def prioritizeOrder (a b : Scored) : Prop :=
  if isVolOneScored a && !isVolOneScored b then True
  else if !isVolOneScored a && isVolOneScored b then False
  else b.relevanceScore ≤ a.relevanceScore

instance : DecidableRel prioritizeOrder := fun a b => by
  unfold prioritizeOrder
  infer_instance

instance : IsTrans Scored prioritizeOrder := by
  constructor
  intro a b c hab hbc
  unfold prioritizeOrder at hab hbc ⊢
  cases hva : isVolOneScored a <;> cases hvb : isVolOneScored b <;>
    cases hvc : isVolOneScored c <;> simp_all <;> linarith

instance : IsTotal Scored prioritizeOrder := by
  constructor
  intro a b
  unfold prioritizeOrder
  cases hva : isVolOneScored a <;> cases hvb : isVolOneScored b <;> simp_all <;>
    exact le_total _ _

/-- First pass of the `handleSearch` pipeline: drop excluded items, attach
relevance scores, stable-sort by descending score, keep the top 15
(`.filter ... .map ... .sort ... .slice(0, 15)`). -/
def rankPass1 (items : List BookItem) (searchTerm : Str)
    (excludeVariants : Bool) : List Scored :=
  (List.insertionSort relevanceOrder
    ((items.filter fun item => !shouldExcludeItem item excludeVariants).map
      fun item => ⟨item, calculateRelevanceScore item searchTerm⟩)).take 15

/-- The full ranking pipeline of `handleSearch`: the first pass, then the
`prioritizeFirstVolume` re-sort when that option is on. -/
def rankResults (items : List BookItem) (searchTerm : Str)
    (excludeVariants prioritizeFirstVolume : Bool) : List Scored :=
  if prioritizeFirstVolume then
    List.insertionSort prioritizeOrder (rankPass1 items searchTerm excludeVariants)
  else rankPass1 items searchTerm excludeVariants

/-- Candidate `{title: "Naruto 1", ratingsCount: 500, rating: 4.5}` of the
specification scenario. -/
def itemNaruto1 : BookItem :=
  ⟨str ("a"), ⟨str ("Naruto 1"), none, none, none, some 4.5, some 500, none, none, none⟩⟩

/-- Candidate `{title: "Naruto Anthology"}` of the specification scenario. -/
def itemNarutoAnth : BookItem :=
  ⟨str ("b"), ⟨str ("Naruto Anthology"), none, none, none, none, none, none, none, none⟩⟩

/-- Candidate `{title: "Naruto 2"}` of the specification scenario. -/
def itemNaruto2 : BookItem :=
  ⟨str ("c"), ⟨str ("Naruto 2"), none, none, none, none, none, none, none, none⟩⟩

/-- A candidate whose title carries the edition-variant keyword 完全版. -/
def itemKanzenban : BookItem :=
  ⟨str ("k"), ⟨str ("NARUTO 完全版"), none, none, none, none, none, none, none, none⟩⟩

/-- The keywords that occur in both the `variants` penalty list and the
`excludeKeywords` exclusion list. -/
def sharedVariantKeywords : List Str :=
  [str ("4コマ"), str ("ショート"), str ("アンソロジー"),
   str ("番外編"), str ("スピンオフ")]

/-- Replace the optional description of a candidate. -/
def withDescription (item : BookItem) (d : Option Str) : BookItem :=
  ⟨item.id, ⟨item.volumeInfo.title, item.volumeInfo.authors, d,
    item.volumeInfo.imageLinks, item.volumeInfo.averageRating,
    item.volumeInfo.ratingsCount, item.volumeInfo.publishedDate,
    item.volumeInfo.pageCount, item.volumeInfo.categories⟩⟩

/-- A candidate with every optional field absent. -/
def itemBare : BookItem :=
  ⟨str ("w"), ⟨str ("w"), none, none, none, none, none, none, none, none⟩⟩

/-- A candidate whose published date has no parsable year. -/
def itemBadDate : BookItem :=
  ⟨str ("w2"), ⟨str ("w2"), none, none, none, none, none,
    some (str ("unknown")), none, none⟩⟩

/-- A candidate whose lowercased title equals the lowercased term `"A"`. -/
def itemExact : BookItem :=
  ⟨str ("e"), ⟨str ("a"), none, none, none, none, none, none, none, none⟩⟩

/-- Modelled from the spec: the TF-IDF/cosine-similarity recommender runs in
an external service that the page only reaches over HTTP
(`fetchMLRecommendations` fetches `/api/ml-recommendations/...`), so its
similarity computation is not part of this repository.  Following section 4.6
of the specification, a term-weight vector is a finite family of real
weights, and this is its dot product. -/
def dotProduct (n : ℕ) (v w : Fin n → ℝ) : ℝ := ∑ i, v i * w i

open Classical in
/-- Modelled from the spec: cosine similarity of two term-weight vectors,
defined as 0 when either vector has zero magnitude (never a division by
zero), otherwise the dot product over the product of the magnitudes. -/
noncomputable def cosineSimilarity (n : ℕ) (v w : Fin n → ℝ) : ℝ :=
  if dotProduct n v v = 0 ∨ dotProduct n w w = 0 then 0
  else dotProduct n v w / (Real.sqrt (dotProduct n v v) * Real.sqrt (dotProduct n w w))

/-- The constant-one weight vector on one term, a witness profile. -/
def constOneProfile : Fin 1 → ℝ := fun _ => 1

theorem isPrefixOf_self (l : Str) : l.isPrefixOf l = true := by
  induction l with
  | nil => rfl
  | cons a as ih => simp [List.isPrefixOf, ih]

theorem jsIncludes_self (l : Str) : jsIncludes l l = true := by
  cases l with
  | nil => rfl
  | cons a as => simp [jsIncludes, List.tails, isPrefixOf_self]

theorem scoreNaruto1 : calculateRelevanceScore itemNaruto1 (str ("Naruto")) = 2545 := by
  rw [calculateRelevanceScore, titleMatchScore]
  rw [if_neg (by decide), if_pos (by decide), if_pos (by decide)]
  rw [volumeOneBonus, if_pos (by decide)]
  rw [variantPenalty, if_neg (by decide)]
  norm_num [ratingsCountOf, averageRatingOf, authorBonus, imageBonus, recencyBonus,
    publishedYear, itemNaruto1]

theorem scoreNarutoAnth : calculateRelevanceScore itemNarutoAnth (str ("Naruto")) = 700 := by
  rw [calculateRelevanceScore, titleMatchScore]
  rw [if_neg (by decide), if_pos (by decide), if_pos (by decide)]
  rw [volumeOneBonus, if_neg (by decide)]
  rw [variantPenalty, if_neg (by decide)]
  norm_num [ratingsCountOf, averageRatingOf, authorBonus, imageBonus, recencyBonus,
    publishedYear, itemNarutoAnth]

theorem scoreNaruto2 : calculateRelevanceScore itemNaruto2 (str ("Naruto")) = 700 := by
  rw [calculateRelevanceScore, titleMatchScore]
  rw [if_neg (by decide), if_pos (by decide), if_pos (by decide)]
  rw [volumeOneBonus, if_neg (by decide)]
  rw [variantPenalty, if_neg (by decide)]
  norm_num [ratingsCountOf, averageRatingOf, authorBonus, imageBonus, recencyBonus,
    publishedYear, itemNaruto2]

theorem narutoScenarioEval :
    (rankResults [itemNaruto1, itemNarutoAnth, itemNaruto2] (str ("Naruto")) true true).map
        (fun s => s.item.volumeInfo.title)
      = [str ("Naruto 1"), str ("Naruto Anthology"), str ("Naruto 2")] := by
  rw [rankResults, if_pos rfl, rankPass1]
  rw [List.filter_cons_of_pos (by decide), List.filter_cons_of_pos (by decide),
    List.filter_cons_of_pos (by decide), List.filter_nil]
  simp only [List.map_cons, List.map_nil, scoreNaruto1, scoreNarutoAnth, scoreNaruto2]
  norm_num [List.insertionSort, List.orderedInsert, relevanceOrder, prioritizeOrder,
    isVolOneScored, List.take]
  decide

/-- Claim C1, counterexample: on the specification scenario the pipeline does
NOT return `["Naruto 1", "Naruto 2"]` — the title `"Naruto Anthology"` is not
excluded, because the exclusion-keyword list contains only the katakana
アンソロジー and other Japanese markers, not the English word `anthology`. -/
theorem naruto_scenario_not_as_claimed :
    (rankResults [itemNaruto1, itemNarutoAnth, itemNaruto2] (str ("Naruto")) true true).map
        (fun s => s.item.volumeInfo.title)
      ≠ [str ("Naruto 1"), str ("Naruto 2")] := by
  rw [narutoScenarioEval]
  decide

/-- Claim C1 (amended): with candidates Naruto 1 (ratingsCount 500, rating
4.5), Naruto Anthology and Naruto 2, term `"Naruto"`, `excludeVariants` and
`prioritizeFirstVolume` both on, the pipeline returns Naruto 1 first (first
volume, highest score), then Naruto Anthology, then Naruto 2 (score tie
broken by input order); the English-titled anthology passes the
Japanese-keyword exclusion filter instead of being dropped. -/
theorem naruto_scenario_ranked :
    (rankResults [itemNaruto1, itemNarutoAnth, itemNaruto2] (str ("Naruto")) true true).map
        (fun s => s.item.volumeInfo.title)
      = [str ("Naruto 1"), str ("Naruto Anthology"), str ("Naruto 2")] :=
  narutoScenarioEval

/-- Claim C2, counterexample: the penalty list of `calculateRelevanceScore`
and the exclusion list of `shouldExcludeItem` are different lists — the title
`NARUTO 完全版` carries a penalty keyword yet is not excluded. -/
theorem penalty_exclusion_lists_not_equivalent :
    ¬ (hasVariantKeyword (jsToLower itemKanzenban.volumeInfo.title) = true ↔
       shouldExcludeItem itemKanzenban true = true) := by
  decide

/-- Claim C2 (amended): the penalty and exclusion checks consult overlapping
but distinct keyword lists; any title containing one of the five shared
keywords (4コマ, ショート, アンソロジー, 番外編, スピンオフ) both receives the
penalty and is excluded, while 完全版-style edition keywords only penalize and
side story-style keywords only exclude. -/
theorem penalty_and_exclusion_share_core (t : Str)
    (h : (sharedVariantKeywords.any fun k => jsIncludes t k) = true) :
    hasVariantKeyword t = true ∧ hasExcludeKeyword t = true := by
  have e1 : jsToLower (str ("4コマ")) = str ("4コマ") := by decide
  have e2 : jsToLower (str ("ショート")) = str ("ショート") := by decide
  have e3 : jsToLower (str ("アンソロジー")) = str ("アンソロジー") := by decide
  have e4 : jsToLower (str ("番外編")) = str ("番外編") := by decide
  have e5 : jsToLower (str ("スピンオフ")) = str ("スピンオフ") := by decide
  simp only [sharedVariantKeywords, List.any_cons, List.any_nil,
    Bool.or_eq_true, Bool.or_false] at h
  constructor
  · simp only [hasVariantKeyword, variants, List.any_cons, List.any_nil,
      e1, e2, e3, e4, e5, Bool.or_eq_true, Bool.or_false]
    tauto
  · simp only [hasExcludeKeyword, excludeKeywords, List.any_cons, List.any_nil,
      Bool.or_eq_true, Bool.or_false]
    tauto

/-- Witness for C2: the title アンソロジー contains a shared keyword and is
both penalized and excluded. -/
theorem penalty_and_exclusion_share_core_witness :
    (sharedVariantKeywords.any fun k => jsIncludes (str ("アンソロジー")) k) = true ∧
    hasVariantKeyword (str ("アンソロジー")) = true ∧
    hasExcludeKeyword (str ("アンソロジー")) = true :=
  ⟨by decide,
   (penalty_and_exclusion_share_core (str ("アンソロジー")) (by decide)).1,
   (penalty_and_exclusion_share_core (str ("アンソロジー")) (by decide)).2⟩

/-- Claim C10: the scorer's end-anchored `volumeOnePatterns` and the
re-sort's unanchored first-volume regex are not equivalent: a title with
`Vol. 1` in the middle is promoted by the re-sort but matches no scorer
pattern and so gets no 800-point bonus. -/
theorem first_volume_detectors_disagree :
    sortVolumeOne (jsToLower (str ("Naruto Vol. 1 Special Edition"))) = true ∧
    isVolumeOne (jsToLower (str ("Naruto Vol. 1 Special Edition"))) = false ∧
    volumeOneBonus (jsToLower (str ("Naruto Vol. 1 Special Edition"))) = 0 := by
  refine ⟨by decide, by decide, ?_⟩
  rw [volumeOneBonus, if_neg (by decide)]

/-- Claim C3: with `prioritizeFirstVolume` on, the ranked output never puts a
candidate that is not a detected first volume before one that is — every
detected first volume precedes every non-first-volume. -/
theorem first_volume_priority_in_output (items : List BookItem) (term : Str)
    (excludeVariants : Bool) :
    (rankResults items term excludeVariants true).Pairwise
      (fun a b => isVolOneScored b = true → isVolOneScored a = true) := by
  rw [rankResults, if_pos rfl]
  have h : (List.insertionSort prioritizeOrder
      (rankPass1 items term excludeVariants)).Pairwise prioritizeOrder :=
    List.sorted_insertionSort prioritizeOrder _
  refine h.imp ?_
  intro a b hab hb
  by_contra ha
  rw [Bool.not_eq_true] at ha
  simp [prioritizeOrder, ha, hb] at hab

/-- Claim C4: toggling `prioritizeFirstVolume` only reorders the output; the
re-sort runs after truncation, so the returned multiset of scored candidates
is the same either way. -/
theorem prioritize_toggle_preserves_set (items : List BookItem) (term : Str)
    (excludeVariants : Bool) :
    (rankResults items term excludeVariants true).Perm
      (rankResults items term excludeVariants false) := by
  rw [rankResults, if_pos rfl, rankResults, if_neg (by simp)]
  exact List.perm_insertionSort prioritizeOrder _

/-- Claim C5, counterexample: a term that names an explicit volume with a
bare digit (`Naruto 5`) or with a kanji numeral (`ナルト 一巻`) is NOT
returned unchanged — the query builder only recognizes ASCII digits followed
by 巻 or a vol token, and expands everything else. -/
theorem build_query_expands_explicit_volume_terms :
    buildSmartSearchQuery (str ("Naruto 5")) ≠ str ("Naruto 5") ∧
    buildSmartSearchQuery (str ("ナルト 一巻")) ≠ str ("ナルト 一巻") := by
  constructor <;> decide

/-- Claim C5 (amended): the term is returned unchanged exactly when it
matches digits+巻, 第+digits+巻 or a vol token with digits; terms naming a
volume by a bare digit or a kanji numeral are not recognized.  All other
terms become the OR composite of a title-scoped exact match, title-scoped
`term 1`, title-scoped `term 第1巻`, and the bare term. -/
theorem build_query_dichotomy (term : Str) :
    (hasVolumeNumber term = true → buildSmartSearchQuery term = term) ∧
    (hasVolumeNumber term = false → buildSmartSearchQuery term =
      str ("intitle:\"") ++ term ++ str ("\"") ++ str (" OR ") ++
      str ("intitle:\"") ++ term ++ str (" 1\"") ++ str (" OR ") ++
      str ("intitle:\"") ++ term ++ str (" 第1巻\"") ++ str (" OR ") ++ term) := by
  constructor
  · intro h
    rw [buildSmartSearchQuery]
    simp [h]
  · intro h
    rw [buildSmartSearchQuery]
    simp [h, List.intercalate, List.intersperse, List.flatten]

/-- Witness for C5: a 巻-numbered term passes through unchanged, and a bare
series name is expanded into the four-branch OR composite. -/
theorem build_query_dichotomy_witness :
    buildSmartSearchQuery (str ("ワンピース 3巻")) = str ("ワンピース 3巻") ∧
    buildSmartSearchQuery (str ("ナルト")) =
      str ("intitle:\"") ++ str ("ナルト") ++ str ("\"") ++ str (" OR ") ++
      str ("intitle:\"") ++ str ("ナルト") ++ str (" 1\"") ++ str (" OR ") ++
      str ("intitle:\"") ++ str ("ナルト") ++ str (" 第1巻\"") ++ str (" OR ") ++
      str ("ナルト") :=
  ⟨(build_query_dichotomy (str ("ワンピース 3巻"))).1 (by decide),
   (build_query_dichotomy (str ("ナルト"))).2 (by decide)⟩

/-- Claim C6: for every candidate list, term and option settings, the ranked
output has at most `min (number of candidates) 15` entries — the pipeline
truncates to 15 after the relevance sort, and the re-sort does not change the
length. -/
theorem ranked_output_length_bound (items : List BookItem) (term : Str)
    (excludeVariants prioritizeFirstVolume : Bool) :
    (rankResults items term excludeVariants prioritizeFirstVolume).length
      ≤ min items.length 15 := by
  have hf : ((items.filter fun item => !shouldExcludeItem item excludeVariants).length)
      ≤ items.length := List.length_filter_le _ _
  cases prioritizeFirstVolume with
  | false =>
    rw [rankResults, if_neg (by simp), rankPass1]
    simp only [List.length_take, List.length_insertionSort, List.length_map]
    omega
  | true =>
    rw [rankResults, if_pos rfl]
    rw [List.length_insertionSort, rankPass1]
    simp only [List.length_take, List.length_insertionSort, List.length_map]
    omega

/-- Claim C7: the scorer is total on candidates with absent optional fields:
each absent field contributes exactly 0 (a missing or unparsable published
date gives a 0 recency contribution), and the unused description never
affects the score.  The embedding returns a rational for every input, so no
input can make the scorer throw or produce NaN. -/
theorem score_total_on_missing_fields (item : BookItem) (term : Str) :
    (item.volumeInfo.authors = none → authorBonus item = 0) ∧
    (item.volumeInfo.imageLinks = none → imageBonus item = 0) ∧
    (item.volumeInfo.averageRating = none → averageRatingOf item = 0) ∧
    (item.volumeInfo.ratingsCount = none → ratingsCountOf item = 0) ∧
    (item.volumeInfo.publishedDate = none → recencyBonus item = 0) ∧
    (∀ d, item.volumeInfo.publishedDate = some d →
      jsParseInt (firstDashSegment d) = none → recencyBonus item = 0) ∧
    (∀ d, calculateRelevanceScore (withDescription item d) term
        = calculateRelevanceScore item term) := by
  refine ⟨?_, ?_, ?_, ?_, ?_, ?_, ?_⟩
  · intro h
    simp [authorBonus, h]
  · intro h
    simp [imageBonus, h]
  · intro h
    simp [averageRatingOf, h]
  · intro h
    simp [ratingsCountOf, h]
  · intro h
    norm_num [recencyBonus, publishedYear, h]
  · intro d hd hp
    simp [recencyBonus, publishedYear, hd, hp]
  · intro d
    rfl

/-- Witness for C7: a candidate with every optional field absent contributes
0 for each of them, an unparsable published date contributes 0, and changing
the description leaves the score unchanged. -/
theorem score_total_on_missing_fields_witness :
    authorBonus itemBare = 0 ∧ imageBonus itemBare = 0 ∧
    averageRatingOf itemBare = 0 ∧ ratingsCountOf itemBare = 0 ∧
    recencyBonus itemBare = 0 ∧ recencyBonus itemBadDate = 0 ∧
    calculateRelevanceScore (withDescription itemBare (some (str ("x")))) (str ("q"))
      = calculateRelevanceScore itemBare (str ("q")) :=
  ⟨(score_total_on_missing_fields itemBare (str ("q"))).1 rfl,
   (score_total_on_missing_fields itemBare (str ("q"))).2.1 rfl,
   (score_total_on_missing_fields itemBare (str ("q"))).2.2.1 rfl,
   (score_total_on_missing_fields itemBare (str ("q"))).2.2.2.1 rfl,
   (score_total_on_missing_fields itemBare (str ("q"))).2.2.2.2.1 rfl,
   (score_total_on_missing_fields itemBadDate (str ("q"))).2.2.2.2.2.1
     (str ("unknown")) rfl (by decide),
   (score_total_on_missing_fields itemBare (str ("q"))).2.2.2.2.2.2 (some (str ("x")))⟩

/-- Claim C8 (modelled from the spec, section 4.6): for nonnegative
term-weight vectors the cosine similarity lies in the closed interval from 0
to 1, it is exactly 0 when either vector has zero magnitude, and the
similarity of a profile with itself is exactly 1 when its magnitude is
nonzero. -/
theorem cosine_similarity_props (n : ℕ) (v w : Fin n → ℝ)
    (hv : ∀ i, 0 ≤ v i) (hw : ∀ i, 0 ≤ w i) :
    (0 ≤ cosineSimilarity n v w ∧ cosineSimilarity n v w ≤ 1) ∧
    ((dotProduct n v v = 0 ∨ dotProduct n w w = 0) → cosineSimilarity n v w = 0) ∧
    (dotProduct n v v ≠ 0 → cosineSimilarity n v v = 1) := by
  have hdvv : 0 ≤ dotProduct n v v :=
    Finset.sum_nonneg fun i _ => mul_self_nonneg (v i)
  have hdww : 0 ≤ dotProduct n w w :=
    Finset.sum_nonneg fun i _ => mul_self_nonneg (w i)
  have hdvw : 0 ≤ dotProduct n v w :=
    Finset.sum_nonneg fun i _ => mul_nonneg (hv i) (hw i)
  refine ⟨?_, ?_, ?_⟩
  · by_cases hz : dotProduct n v v = 0 ∨ dotProduct n w w = 0
    · rw [cosineSimilarity, if_pos hz]
      norm_num
    · rw [cosineSimilarity, if_neg hz]
      push_neg at hz
      have hv0 : 0 < dotProduct n v v := lt_of_le_of_ne hdvv (Ne.symm hz.1)
      have hw0 : 0 < dotProduct n w w := lt_of_le_of_ne hdww (Ne.symm hz.2)
      have hsv : 0 < Real.sqrt (dotProduct n v v) := Real.sqrt_pos.mpr hv0
      have hsw : 0 < Real.sqrt (dotProduct n w w) := Real.sqrt_pos.mpr hw0
      constructor
      · exact div_nonneg hdvw (le_of_lt (mul_pos hsv hsw))
      · rw [div_le_one (mul_pos hsv hsw)]
        have ev : dotProduct n v v = ∑ i, v i ^ 2 :=
          Finset.sum_congr rfl fun i _ => (pow_two (v i)).symm
        have ew : dotProduct n w w = ∑ i, w i ^ 2 :=
          Finset.sum_congr rfl fun i _ => (pow_two (w i)).symm
        rw [ev, ew]
        exact Real.sum_mul_le_sqrt_mul_sqrt Finset.univ v w
  · intro hz
    rw [cosineSimilarity, if_pos hz]
  · intro hne
    rw [cosineSimilarity, if_neg (by simp [hne])]
    rw [Real.mul_self_sqrt hdvv]
    exact div_self hne

/-- Witness for C8: the one-term unit profile is nonnegative, its
similarities are bounded, and its self-similarity obeys the theorem. -/
theorem cosine_similarity_props_witness :
    (∀ i : Fin 1, 0 ≤ constOneProfile i) ∧
    ((0 ≤ cosineSimilarity 1 constOneProfile constOneProfile ∧
      cosineSimilarity 1 constOneProfile constOneProfile ≤ 1) ∧
     ((dotProduct 1 constOneProfile constOneProfile = 0 ∨
       dotProduct 1 constOneProfile constOneProfile = 0) →
      cosineSimilarity 1 constOneProfile constOneProfile = 0) ∧
     (dotProduct 1 constOneProfile constOneProfile ≠ 0 →
      cosineSimilarity 1 constOneProfile constOneProfile = 1)) :=
  ⟨fun _ => zero_le_one,
   cosine_similarity_props 1 constOneProfile constOneProfile
     (fun _ => zero_le_one) (fun _ => zero_le_one)⟩

/-- Claim C9: when the lowercased title equals the lowercased non-empty
search term, the title-match component contributes 1000 + 500 + 200 = 1700 in
total, because the exact, prefix and substring bonuses are independent
conditions that all hold for an exact match. -/
theorem exact_match_scores_1700 (item : BookItem) (term : Str)
    (_hne : term ≠ []) (h : jsToLower item.volumeInfo.title = jsToLower term) :
    calculateRelevanceScore item term
      = 1700 + volumeOneBonus (jsToLower item.volumeInfo.title)
        + 2 * ratingsCountOf item + 10 * averageRatingOf item
        + variantPenalty (jsToLower item.volumeInfo.title)
        + authorBonus item + imageBonus item + recencyBonus item := by
  have h1700 : titleMatchScore (jsToLower term) (jsToLower term) = 1700 := by
    rw [titleMatchScore, if_pos rfl, if_pos (isPrefixOf_self _),
      if_pos (jsIncludes_self _)]
    norm_num
  rw [calculateRelevanceScore, h, h1700]

/-- Witness for C9: a title `a` and term `A` coincide after lowercasing, and
the scorer pays the full 1700-point title-match total. -/
theorem exact_match_scores_1700_witness :
    str ("A") ≠ ([] : Str) ∧
    jsToLower itemExact.volumeInfo.title = jsToLower (str ("A")) ∧
    calculateRelevanceScore itemExact (str ("A"))
      = 1700 + volumeOneBonus (jsToLower itemExact.volumeInfo.title)
        + 2 * ratingsCountOf itemExact + 10 * averageRatingOf itemExact
        + variantPenalty (jsToLower itemExact.volumeInfo.title)
        + authorBonus itemExact + imageBonus itemExact + recencyBonus itemExact :=
  ⟨by decide, by decide,
   exact_match_scores_1700 itemExact (str ("A")) (by decide) (by decide)⟩

end BookSearch
